import Mathlib

/-
  Verification development for the HCAHPS hospital benchmarking tool
  (streamlit_app.py).  The aggregation pipeline, the presentation-value
  classification, the PowerPoint layout arithmetic and the export handler
  are embedded shallowly below; numeric values are modelled as exact
  rationals (the source computes with IEEE floats, but every comparison
  relevant here is far from any rounding boundary), missing values as
  Option (none models both pandas NaN and Python None, which the source
  treats alike in every branch modelled here).
-/

/-
  Batteries marks the core rational-number operations irreducible so that
  elaboration does not unfold them by accident; restoring their default
  reducibility lets concrete instances of the definitions below evaluate
  with decide.  Kernel-level checking is unaffected by reducibility
  attributes, so this changes nothing about what is provable.
-/
set_option allowUnsafeReducibility true

attribute [semireducible] Rat.add Rat.sub Rat.mul Rat.inv Rat.ofScientific

namespace HB

/-- One raw HCAHPS survey row (fields used by the comparison loop). -/
structure SurveyRecord where
  facilityId : String
  state : String
  measureId : String
  answerPercent : Option ℚ
deriving DecidableEq, Repr

/-- One catalog entry: display label and HCAHPS measure identifier. -/
structure MetricDef where
  label : String
  measureId : String
deriving DecidableEq, Repr

/-- The fixed measure catalog, lines 76-85 of streamlit_app.py. -/
def allMeasures : List MetricDef :=
  [⟨"Nurse Communication", "H_COMP_1_A_P"⟩,
   ⟨"Doctor Communication", "H_COMP_2_A_P"⟩,
   ⟨"Staff Responsiveness", "H_COMP_3_A_P"⟩,
   ⟨"Care Transition", "H_COMP_5_A_P"⟩,
   ⟨"Discharge Info", "H_COMP_6_Y_P"⟩,
   ⟨"Care Cleanliness", "H_CLEAN_HSP_A_P"⟩,
   ⟨"Quietness", "H_QUIET_HSP_A_P"⟩,
   ⟨"Recommend", "H_RECMND_DY"⟩]

/-- Line 91: the selected measures keep catalog order, filtered by
membership of the label in the selected list (Python in). -/
def measures (selected : List String) : List MetricDef :=
  allMeasures.filter (fun m => decide (m.label ∈ selected))

/-- pandas Series.mean with the default skipna=True: null entries are
dropped, and the mean of an empty (or all-null) series is NaN, modelled
as none. -/
def pdMean (xs : List (Option ℚ)) : Option ℚ :=
  let vs := xs.filterMap id
  if vs.isEmpty then none else some (vs.sum / (vs.length : ℚ))

/-- Filter predicate of lines 98-101: same facility and same measure. -/
def hospMatch (hospitalId measureId : String) (r : SurveyRecord) : Prop :=
  r.facilityId = hospitalId ∧ r.measureId = measureId

instance (hid mid : String) (r : SurveyRecord) : Decidable (hospMatch hid mid r) := by
  unfold hospMatch; infer_instance

/-- Filter predicate of lines 102-105: same state and same measure. -/
def stateMatch (hospitalState measureId : String) (r : SurveyRecord) : Prop :=
  r.state = hospitalState ∧ r.measureId = measureId

instance (hst mid : String) (r : SurveyRecord) : Decidable (stateMatch hst mid r) := by
  unfold stateMatch; infer_instance

/-- Filter predicate of lines 106-108: same measure, nationwide. -/
def natMatch (measureId : String) (r : SurveyRecord) : Prop :=
  r.measureId = measureId

instance (mid : String) (r : SurveyRecord) : Decidable (natMatch mid r) := by
  unfold natMatch; infer_instance

/-- Hospital mean for one measure, lines 98-101. -/
def hospScore (records : List SurveyRecord) (hid mid : String) : Option ℚ :=
  pdMean ((records.filter (fun r => decide (hospMatch hid mid r))).map (·.answerPercent))

/-- State mean for one measure, lines 102-105. -/
def stateScore (records : List SurveyRecord) (hst mid : String) : Option ℚ :=
  pdMean ((records.filter (fun r => decide (stateMatch hst mid r))).map (·.answerPercent))

/-- National mean for one measure, lines 106-108. -/
def natScore (records : List SurveyRecord) (mid : String) : Option ℚ :=
  pdMean ((records.filter (fun r => decide (natMatch mid r))).map (·.answerPercent))

/-- Lines 114-115: the difference is computed only when both operands are
non-null (pd.notnull on both), otherwise the cell is None. -/
def diffOpt : Option ℚ → Option ℚ → Option ℚ
  | some a, some b => some (a - b)
  | _, _ => none

/-- One row of the comparison table, lines 109-116. -/
structure CompRow where
  measure : String
  hospital : Option ℚ
  stateAvg : Option ℚ
  nationalAvg : Option ℚ
  vsState : Option ℚ
  vsNational : Option ℚ
deriving DecidableEq, Repr

/-- Body of the comparison loop for one measure, lines 97-116: the three
means are computed once each into locals and reused by the two diff
cells; the locals are inlined here (the functions are pure). -/
def comparisonRow (records : List SurveyRecord) (hid hst : String) (m : MetricDef) : CompRow :=
  { measure := m.label
    hospital := hospScore records hid m.measureId
    stateAvg := stateScore records hst m.measureId
    nationalAvg := natScore records m.measureId
    vsState := diffOpt (hospScore records hid m.measureId) (stateScore records hst m.measureId)
    vsNational := diffOpt (hospScore records hid m.measureId) (natScore records m.measureId) }

/-- The full comparison table: one appended row per entry of measures,
in order, lines 96-116. -/
def comparison (records : List SurveyRecord) (hid hst : String)
    (ms : List MetricDef) : List CompRow :=
  ms.map (comparisonRow records hid hst)

/- ---------------------------------------------------------------------
   pandas DataFrame construction and column selection (lines 118-125).
   pd.DataFrame over a list of dicts takes its columns from the dict keys
   in insertion order; over the empty list it has no columns at all, and
   selecting absent columns with df[[...]] raises a KeyError.
--------------------------------------------------------------------- -/

/-- The six dict keys of lines 110-115, which become the comp_df columns. -/
def compColumns : List String :=
  [("Measure"), ("Hospital"), ("State Avg"), ("National Avg"), ("vs State"), ("vs National")]

/-- The columns of pd.DataFrame(comparison): the dict keys when at least
one row exists, no columns at all for the empty list. -/
def compDfColumns (rows : List CompRow) : List String :=
  if rows.isEmpty then [] else compColumns

/-- df[[c1, ..., ck]] on a frame with the given columns: ok when every
requested column exists, KeyError otherwise.  Line 122 requests exactly
the six compColumns for display. -/
def selectColumns (have0 want : List String) : Except String (List String) :=
  if want.all (fun c => have0.contains c) then Except.ok want
  else Except.error ("KeyError: requested columns not in the DataFrame")

/-- The interactive-table display step, line 122: select the six display
columns from comp_df. -/
def displayTable (rows : List CompRow) : Except String (List String) :=
  selectColumns (compDfColumns rows) compColumns

/- ---------------------------------------------------------------------
   Presentation-value classification.
--------------------------------------------------------------------- -/

/-- Sentiment of a difference cell. -/
inductive Sentiment where
  | POSITIVE
  | NEGATIVE
  | NEUTRAL
deriving DecidableEq, Repr

/-- Modelled from the spec (section 4.3), for comparison with the code:
POSITIVE iff non-null and positive, NEGATIVE iff non-null and negative,
NEUTRAL otherwise. -/
def classify : Option ℚ → Sentiment
  | some v => if 0 < v then Sentiment.POSITIVE
              else if v < 0 then Sentiment.NEGATIVE
              else Sentiment.NEUTRAL
  | none => Sentiment.NEUTRAL

/-- The styling lambda of line 123, applied to the vs State / vs National
columns: green background for a numeric value above 0, red below 0, empty
style otherwise (NaN compares false both ways, None fails the isinstance
test, so both fall to the empty style). -/
def styleCell (v : Option ℚ) : String :=
  match v with
  | some x =>
      if 0 < x then ("background-color: #d4edda")
      else if x < 0 then ("background-color: #f8d7da")
      else ("")
  | none => ("")

/-- Sentiment conveyed by the interactive table: read off the style string
the lambda of line 123 produced. -/
def interactiveSentiment (v : Option ℚ) : Sentiment :=
  if styleCell v = ("background-color: #d4edda") then Sentiment.POSITIVE
  else if styleCell v = ("background-color: #f8d7da") then Sentiment.NEGATIVE
  else Sentiment.NEUTRAL

/- ---------------------------------------------------------------------
   PowerPoint data cells, lines 256-273 of create_pptx.
--------------------------------------------------------------------- -/

/-- Paragraph alignment values used by create_pptx. -/
inductive PPAlign where
  | left
  | right
  | center
deriving DecidableEq, Repr

/-- A value sitting in one comp_df cell: the Measure column holds strings,
the five numeric columns hold floats or missing values. -/
inductive CellVal where
  | strVal (s : String)
  | numVal (q : Option ℚ)
deriving DecidableEq, Repr

/-- Digit string of a natural number. -/
def natStr (n : ℕ) : String := toString n

/-- Left-pad with zeros to the given width. -/
def padZeros (w : ℕ) (s : String) : String :=
  String.mk (List.replicate (w - s.length) '0') ++ s

/-- Fuel-driven count of how often p divides n (p at least 2, fuel at
least n makes it exact). -/
def countFactorsAux : ℕ → ℕ → ℕ → ℕ
  | 0, _, _ => 0
  | fuel + 1, p, n =>
      if 2 ≤ p ∧ 0 < n ∧ n % p = 0 then countFactorsAux fuel p (n / p) + 1 else 0

/-- Multiplicity of p in n. -/
def countFactors (p n : ℕ) : ℕ := countFactorsAux n p n

/-- Python str() of a float holding an exact short decimal value: sign,
integer part, dot, then the minimal decimal digits (at least one).  This
models CPython shortest-repr output for the finite-decimal rationals used
throughout (scores are short decimals; scientific-notation ranges are
never reached by percent data). -/
def pyFloatStr (q : ℚ) : String :=
  let sign := if q < 0 then ("-") else ("")
  let a := |q|
  let ip := (⌊a⌋).toNat
  let k := max (countFactors 2 q.den) (countFactors 5 q.den)
  let d := max k 1
  let fracNat := ((a - (ip : ℚ)) * (10 : ℚ) ^ d).num.toNat
  sign ++ natStr ip ++ (".") ++ padZeros d (natStr fracNat)

/-- Python f-string formatting with one fixed decimal (line 262); ties of
the half-rounding are never exercised by the values considered here. -/
def fmt1f (q : ℚ) : String :=
  let sign := if q < 0 then ("-") else ("")
  let a := |q|
  let t := (round (a * 10)).toNat
  sign ++ natStr (t / 10) ++ (".") ++ natStr (t % 10)

/-- Python str of comp_df.iloc[i,j] as used by the auto-fit loop at line 277:
strings print as themselves, a missing numeric value prints as a float64
NaN ("nan"), a float prints with full precision. -/
def pyCellStr : CellVal → String
  | CellVal.strVal s => s
  | CellVal.numVal none => ("nan")
  | CellVal.numVal (some q) => pyFloatStr q

/-- A PowerPoint table cell as create_pptx leaves it: text, alignment,
font size in points, and an optional solid fill colour (r, g, b). -/
structure PptxCell where
  text : String
  alignment : Option PPAlign
  fontSize : ℚ
  fill : Option (ℕ × ℕ × ℕ)
deriving DecidableEq, Repr

/-- Data-cell construction, lines 256-273: non-null numbers are rendered
with one decimal and right-aligned, non-null strings verbatim and
left-aligned, nulls as empty text; font size 12 is always set; no solid
fill is ever applied to a data cell (only header cells, lines 246-253,
receive a fill). -/
def mkDataCell : CellVal → PptxCell
  | CellVal.strVal s => { text := s, alignment := some PPAlign.left, fontSize := 12, fill := none }
  | CellVal.numVal (some q) =>
      { text := fmt1f q, alignment := some PPAlign.right, fontSize := 12, fill := none }
  | CellVal.numVal none =>
      { text := (""), alignment := none, fontSize := 12, fill := none }

/-- Header-cell construction, lines 246-253: bold 14pt centered text with
a light blue solid fill. -/
def mkHeaderCell (col : String) : PptxCell :=
  { text := col, alignment := some PPAlign.center, fontSize := 14, fill := some (221, 235, 247) }

/-- Sentiment conveyed by an exported data cell: read off its fill,
matching the green / red colours the interactive table uses. -/
def exportSentiment (v : Option ℚ) : Sentiment :=
  match (mkDataCell (CellVal.numVal v)).fill with
  | some c =>
      if c = (212, 237, 218) then Sentiment.POSITIVE
      else if c = (248, 215, 218) then Sentiment.NEGATIVE
      else Sentiment.NEUTRAL
  | none => Sentiment.NEUTRAL

/- ---------------------------------------------------------------------
   Slide layout arithmetic of create_pptx, lines 207-288.  python-pptx
   measures in EMU; Inches(x) is int(x * 914400), and every constant the
   source feeds to Inches is an exact multiple of 1/914400 inch, so the
   float-to-int conversion is exact and is modelled by the rational floor.
--------------------------------------------------------------------- -/

/-- EMU value of a length given in inches: Inches(x) of python-pptx. -/
def inchesEmu (q : ℚ) : ℤ := ⌊q * 914400⌋

/-- Default python-pptx presentation slide width: 10 inches. -/
def slideWidth : ℤ := inchesEmu 10

/-- Default python-pptx presentation slide height: 7.5 inches. -/
def slideHeight : ℤ := inchesEmu 7.5

/-- A placed rectangular region on the slide, in EMU. -/
structure Region where
  left : ℤ
  top : ℤ
  width : ℤ
  height : ℤ
deriving DecidableEq, Repr

/-- Title textbox placement, line 221. -/
def titleRegion : Region :=
  { left := inchesEmu 0.5, top := inchesEmu 0.3,
    width := slideWidth - inchesEmu 1, height := inchesEmu 1 }

/-- Date textbox placement, line 229. -/
def dateRegion : Region :=
  { left := inchesEmu 0.5, top := inchesEmu 1.1,
    width := slideWidth - inchesEmu 1, height := inchesEmu 0.4 }

/-- Per-row height in inches, line 241 (a plain float in the source). -/
def rowHeightIn : ℚ := 0.18

/-- Table placement, lines 237-243: fixed top, height of a fixed base
plus one row unit per data row (the float sum is converted to EMU once). -/
def tableRegion (rows : ℕ) : Region :=
  { left := inchesEmu 0.5, top := inchesEmu 1.6,
    width := slideWidth - inchesEmu 1,
    height := inchesEmu (0.4 + (rows : ℚ) * rowHeightIn) }

/-- Chart placement, lines 281-288: below the table by a 0.2in margin,
height filling the canvas down to a 0.3in bottom margin, clamped up to
2in when the remainder is smaller. -/
def chartRegion (rows : ℕ) : Region :=
  let chartTop := (tableRegion rows).top + (tableRegion rows).height + inchesEmu 0.2
  let h0 := slideHeight - chartTop - inchesEmu 0.3
  let h := if h0 < inchesEmu 2 then inchesEmu 2 else h0
  { left := inchesEmu 0.5, top := chartTop,
    width := slideWidth - inchesEmu 1, height := h }

/-- The uncapped chart height the source computes before the minimum
clamp, line 284. -/
def chartHeightRaw (rows : ℕ) : ℤ :=
  slideHeight - ((tableRegion rows).top + (tableRegion rows).height + inchesEmu 0.2) - inchesEmu 0.3

/- ---------------------------------------------------------------------
   Auto-fit column widths, lines 275-279.
--------------------------------------------------------------------- -/

/-- The columns of comp_df as (header, cells) pairs, in comp_df order;
empty rows give a zero-column frame (pandas on an empty dict list). -/
def columnCells (rowsData : List CompRow) : List (String × List CellVal) :=
  if rowsData.isEmpty then []
  else
    [(("Measure"), rowsData.map (fun r => CellVal.strVal r.measure)),
     (("Hospital"), rowsData.map (fun r => CellVal.numVal r.hospital)),
     (("State Avg"), rowsData.map (fun r => CellVal.numVal r.stateAvg)),
     (("National Avg"), rowsData.map (fun r => CellVal.numVal r.nationalAvg)),
     (("vs State"), rowsData.map (fun r => CellVal.numVal r.vsState)),
     (("vs National"), rowsData.map (fun r => CellVal.numVal r.vsNational))]

/-- Line 277: the longest of the header text and each raw cell text of a
column, measured on Python str() output. -/
def colMaxLen (header : String) (cells : List CellVal) : ℕ :=
  (cells.map (fun c => (pyCellStr c).length)).foldl max header.length

/-- Lines 278-279: width in inches, 0.12 per character clamped to
[1.0, 2.2]. -/
def colWidthIn (header : String) (cells : List CellVal) : ℚ :=
  min (max (0.12 * (colMaxLen header cells : ℚ)) 1.0) 2.2

/-- The widths the auto-fit loop assigns, one per comp_df column. -/
def autoFitWidths (rowsData : List CompRow) : List ℚ :=
  (columnCells rowsData).map (fun hc => colWidthIn hc.1 hc.2)

/-- Modelled from the spec (section 4.2 column-width algorithm), for
comparison with the code: the cell text is measured on the RENDERED text
(nulls render empty, numbers in their one-decimal display format). -/
def specCellStr : CellVal → String
  | CellVal.strVal s => s
  | CellVal.numVal none => ("")
  | CellVal.numVal (some q) => fmt1f q

/-- Modelled from the spec: per-column length over rendered texts. -/
def specColMaxLen (header : String) (cells : List CellVal) : ℕ :=
  (cells.map (fun c => (specCellStr c).length)).foldl max header.length

/-- Modelled from the spec: clamp(len * per_char_unit, min, max) over the
rendered lengths. -/
def specColWidthIn (header : String) (cells : List CellVal) : ℚ :=
  min (max (0.12 * (specColMaxLen header cells : ℚ)) 1.0) 2.2

/-- Modelled from the spec: the column widths the spec text prescribes. -/
def specWidths (rowsData : List CompRow) : List ℚ :=
  (columnCells rowsData).map (fun hc => specColWidthIn hc.1 hc.2)

/- ---------------------------------------------------------------------
   Chart figures, lines 129-204 (interactive) and 291-358 (export).
--------------------------------------------------------------------- -/

/-- One grouped-bar trace: series name, bar colour, x categories, y
values. -/
structure BarTrace where
  name : String
  markerColor : String
  x : List String
  y : List (Option ℚ)
deriving DecidableEq, Repr

/-- A plotly figure reduced to the fields the claims mention: its traces
and its fixed y-axis range. -/
structure Fig where
  traces : List BarTrace
  barmode : String
  yaxisRange : Option (ℚ × ℚ)
deriving DecidableEq, Repr

/-- The interactive benchmark chart built from comp_df, lines 129-198:
three grouped bar series and a y-axis pinned to the range 0 to 100. -/
def makeFig (rowsData : List CompRow) : Fig :=
  { traces :=
      [{ name := ("Hospital"), markerColor := ("rgb(0, 51, 102)"),
         x := rowsData.map (·.measure), y := rowsData.map (·.hospital) },
       { name := ("State Avg"), markerColor := ("rgb(128, 128, 128)"),
         x := rowsData.map (·.measure), y := rowsData.map (·.stateAvg) },
       { name := ("National Avg"), markerColor := ("rgb(173, 216, 230)"),
         x := rowsData.map (·.measure), y := rowsData.map (·.nationalAvg) }],
    barmode := ("group"),
    yaxisRange := some (0, 100) }

/-- The export chart rebuilt inside create_pptx, lines 291-356: the same
three series and the same fixed y-axis range of 0 to 100. -/
def makeExportFig (rowsData : List CompRow) : Fig :=
  { traces :=
      [{ name := ("Hospital"), markerColor := ("rgb(0, 51, 102)"),
         x := rowsData.map (·.measure), y := rowsData.map (·.hospital) },
       { name := ("State Avg"), markerColor := ("rgb(128, 128, 128)"),
         x := rowsData.map (·.measure), y := rowsData.map (·.stateAvg) },
       { name := ("National Avg"), markerColor := ("rgb(173, 216, 230)"),
         x := rowsData.map (·.measure), y := rowsData.map (·.nationalAvg) }],
    barmode := ("group"),
    yaxisRange := some (0, 100) }

/- ---------------------------------------------------------------------
   The download-button export handler, lines 363-376.
--------------------------------------------------------------------- -/

/-- Outcomes of the three fallible collaborator steps of the export path:
rasterizing the interactive figure (line 365), rasterizing the export
figure inside create_pptx (line 359), and saving the presentation
(line 372). -/
structure ExportEnv where
  chartRasterOk : Bool
  exportRasterOk : Bool
  saveOk : Bool
deriving DecidableEq, Repr

/-- Which temporary artifacts exist on disk. -/
structure FsState where
  chartFile : Bool
  pptxFile : Bool
deriving DecidableEq, Repr

/-- The handler of lines 368-376 run step by step.  Each NamedTemporaryFile
with delete=False creates its file up front; an exception at any step
propagates immediately, and the two os.remove calls sit on the straight
line at the end with no try/finally around them. -/
def runExport (env : ExportEnv) : Except String Unit × FsState :=
  let fs : FsState := { chartFile := true, pptxFile := false }
  if ¬ env.chartRasterOk then (Except.error ("write_image failed"), fs)
  else if ¬ env.exportRasterOk then (Except.error ("write_image failed"), fs)
  else
    let fs := { fs with pptxFile := true }
    if ¬ env.saveOk then (Except.error ("pptx save failed"), fs)
    else
      let fs := { fs with chartFile := false }
      let fs := { fs with pptxFile := false }
      (Except.ok (), fs)

/-- Index-based view of the comp_df headers, used to state the per-column
width formula independently of the column-list construction. -/
def colHeader (j : ℕ) : String :=
  match j with
  | 0 => ("Measure")
  | 1 => ("Hospital")
  | 2 => ("State Avg")
  | 3 => ("National Avg")
  | 4 => ("vs State")
  | _ => ("vs National")

/-- Index-based view of the comp_df cell of one row, matching colHeader. -/
def colField (j : ℕ) (r : CompRow) : CellVal :=
  match j with
  | 0 => CellVal.strVal r.measure
  | 1 => CellVal.numVal r.hospital
  | 2 => CellVal.numVal r.stateAvg
  | 3 => CellVal.numVal r.nationalAvg
  | 4 => CellVal.numVal r.vsState
  | _ => CellVal.numVal r.vsNational

/- ---------------------------------------------------------------------
   Concrete fixtures (scenario A of the spec and variants), used by the
   closed witness and counterexample statements below.
--------------------------------------------------------------------- -/

/-- Scenario A record: facility A in state TX scores 80 on the nurse
measure. -/
def recA : SurveyRecord := ⟨("A"), ("TX"), ("H_COMP_1_A_P"), some 80⟩

/-- Scenario A record: facility B in state TX scores 60 on the nurse
measure. -/
def recB : SurveyRecord := ⟨("B"), ("TX"), ("H_COMP_1_A_P"), some 60⟩

/-- Scenario A record set. -/
def scenarioA : List SurveyRecord := [recA, recB]

/-- A record whose score has a long decimal expansion. -/
def recLong : SurveyRecord := ⟨("A"), ("TX"), ("H_COMP_1_A_P"), some 12.345678⟩

/-- The nurse-communication catalog entry. -/
def mNurse : MetricDef := ⟨("Nurse Communication"), ("H_COMP_1_A_P")⟩

/-- The doctor-communication catalog entry (no matching records in
scenario A). -/
def mDoctor : MetricDef := ⟨("Doctor Communication"), ("H_COMP_2_A_P")⟩

/-- A two-label selection covering one populated and one empty metric. -/
def selW : List String := [("Nurse Communication"), ("Doctor Communication")]

/-- The single-row comparison table produced from the long-decimal
record. -/
def rowsLong : List CompRow := comparison [recLong] ("A") ("TX") [mNurse]

/- ---------------------------------------------------------------------
   Helper lemmas.
--------------------------------------------------------------------- -/

lemma diffOpt_none_left (b : Option ℚ) : diffOpt none b = none := by
  cases b <;> rfl

lemma exportSentiment_eq_neutral (v : Option ℚ) : exportSentiment v = Sentiment.NEUTRAL := by
  cases v <;> rfl

lemma interactiveSentiment_eq_classify (v : Option ℚ) :
    interactiveSentiment v = classify v := by
  cases v with
  | none => rfl
  | some x =>
      unfold interactiveSentiment styleCell classify
      by_cases h1 : 0 < x
      · simp [h1]
      · by_cases h2 : x < 0
        · simp only [h1, if_false, h2, if_true]
          decide
        · simp only [h1, if_false, h2]
          decide

lemma tableRegion_height (R : ℕ) :
    (tableRegion R).height = 365760 + 164592 * (R : ℤ) := by
  show inchesEmu (0.4 + (R : ℚ) * rowHeightIn) = _
  unfold inchesEmu rowHeightIn
  rw [show ((0.4 : ℚ) + (R : ℚ) * 0.18) * 914400
        = ((365760 + 164592 * (R : ℤ) : ℤ) : ℚ) by push_cast; ring]
  exact Int.floor_intCast _

lemma chartRegion_top (R : ℕ) :
    (chartRegion R).top = 2011680 + 164592 * (R : ℤ) := by
  show (tableRegion R).top + (tableRegion R).height + inchesEmu 0.2 = _
  rw [tableRegion_height]
  have h1 : (tableRegion R).top = 1463040 := by
    show inchesEmu 1.6 = 1463040
    decide
  have h2 : inchesEmu 0.2 = 182880 := by decide
  rw [h1, h2]
  ring

lemma chartHeightRaw_eval (R : ℕ) :
    chartHeightRaw R = 4572000 - 164592 * (R : ℤ) := by
  unfold chartHeightRaw
  rw [tableRegion_height]
  have h1 : (tableRegion R).top = 1463040 := by
    show inchesEmu 1.6 = 1463040
    decide
  have h2 : inchesEmu 0.2 = 182880 := by decide
  have h3 : inchesEmu 0.3 = 274320 := by decide
  have h4 : slideHeight = 6858000 := by decide
  rw [h1, h2, h3, h4]
  ring

lemma chartRegion_height (R : ℕ) :
    (chartRegion R).height
      = if chartHeightRaw R < 1828800 then 1828800 else chartHeightRaw R := by
  show (if chartHeightRaw R < inchesEmu 2 then inchesEmu 2 else chartHeightRaw R) = _
  rw [show inchesEmu 2 = 1828800 by decide]

lemma pdMean_congr (xs ys : List (Option ℚ)) (h : xs.filterMap id = ys.filterMap id) :
    pdMean xs = pdMean ys := by
  unfold pdMean
  rw [h]

lemma filterMap_filter_isSome (records : List SurveyRecord) (p : SurveyRecord → Bool) :
    (((records.filter (fun r => r.answerPercent.isSome)).filter p).map (·.answerPercent)).filterMap id
      = ((records.filter p).map (·.answerPercent)).filterMap id := by
  induction records with
  | nil => rfl
  | cons r rs ih =>
      cases ha : r.answerPercent with
      | none =>
          by_cases hp : p r = true <;>
            (simp [List.filter_cons, ha, hp, List.filter_filter, List.filterMap_map] at ih ⊢;
             exact ih)
      | some q =>
          by_cases hp : p r = true <;>
            (simp [List.filter_cons, ha, hp, List.filter_filter, List.filterMap_map] at ih ⊢;
             exact ih)

lemma hospScore_filter_isSome (records : List SurveyRecord) (hid mid : String) :
    hospScore (records.filter (fun r => r.answerPercent.isSome)) hid mid
      = hospScore records hid mid := by
  unfold hospScore
  exact pdMean_congr _ _ (filterMap_filter_isSome records _)

lemma stateScore_filter_isSome (records : List SurveyRecord) (hst mid : String) :
    stateScore (records.filter (fun r => r.answerPercent.isSome)) hst mid
      = stateScore records hst mid := by
  unfold stateScore
  exact pdMean_congr _ _ (filterMap_filter_isSome records _)

lemma natScore_filter_isSome (records : List SurveyRecord) (mid : String) :
    natScore (records.filter (fun r => r.answerPercent.isSome)) mid
      = natScore records mid := by
  unfold natScore
  exact pdMean_congr _ _ (filterMap_filter_isSome records _)

lemma filter_mem_length (L S : List String) (hL : L.Nodup) (hS : S.Nodup)
    (hsub : ∀ s ∈ S, s ∈ L) :
    (L.filter (fun s => decide (s ∈ S))).length = S.length := by
  have hnd : (L.filter (fun s => decide (s ∈ S))).Nodup := hL.filter _
  have hperm : List.Perm (L.filter (fun s => decide (s ∈ S))) S := by
    rw [List.perm_ext_iff_of_nodup hnd hS]
    intro a
    simp only [List.mem_filter, decide_eq_true_eq]
    exact ⟨fun h => h.2, fun h => ⟨hsub a h, h⟩⟩
  exact hperm.length_eq

lemma measures_length (sel : List String) (hnd : sel.Nodup)
    (hsub : ∀ s ∈ sel, s ∈ allMeasures.map (·.label)) :
    (measures sel).length = sel.length := by
  unfold measures
  rw [← List.countP_eq_length_filter]
  rw [show (fun m : MetricDef => decide (m.label ∈ sel))
        = ((fun s : String => decide (s ∈ sel)) ∘ (·.label)) from rfl]
  rw [← List.countP_map, List.countP_eq_length_filter]
  exact filter_mem_length _ sel (by decide) hnd hsub

/- ---------------------------------------------------------------------
   Claim theorems.
--------------------------------------------------------------------- -/

/-- C1 (counterexample): the claim that the interactive table and the
exported PowerPoint show the same sentiment for every difference cell is
false at the concrete cell value 10: the interactive table styles it
POSITIVE (green) while the exported data cell carries no fill at all and
so reads NEUTRAL. -/
theorem c1_counterexample :
    interactiveSentiment (some 10) = Sentiment.POSITIVE ∧
    exportSentiment (some 10) = Sentiment.NEUTRAL ∧
    interactiveSentiment (some 10) ≠ exportSentiment (some 10) := by
  decide

/-- C1 (amended): the interactive styling lambda realises exactly the
spec classification (positive iff non-null and above 0, negative iff
non-null and below 0, neutral otherwise), but create_pptx never applies a
sentiment fill to data cells, so every exported cell reads NEUTRAL; the
two surfaces agree on a cell exactly when its classification is
NEUTRAL. -/
theorem c1_cross_surface_classification (v : Option ℚ) :
    interactiveSentiment v = classify v ∧
    exportSentiment v = Sentiment.NEUTRAL ∧
    (interactiveSentiment v = exportSentiment v ↔ classify v = Sentiment.NEUTRAL) := by
  refine ⟨interactiveSentiment_eq_classify v, exportSentiment_eq_neutral v, ?_⟩
  rw [interactiveSentiment_eq_classify v, exportSentiment_eq_neutral v]

/-- C2 (counterexample): for the empty metric selection the pipeline does
not survive without failing: the comparison list is empty, so comp_df has
no columns and the interactive-table column selection of line 122 raises
a KeyError. -/
theorem c2_counterexample :
    comparison [] ("A") ("TX") [] = [] ∧
    displayTable (comparison [] ("A") ("TX") []) =
      Except.error ("KeyError: requested columns not in the DataFrame") :=
  ⟨rfl, rfl⟩

/-- C2 (amended): for every record set the empty selection yields an
empty comparison table, and the export layout arithmetic at zero rows
gives a table region of exactly the fixed 0.4-inch base offset and a
chart region at least the 2-inch minimum; but the interactive display
step fails with a KeyError on the resulting zero-column DataFrame rather
than proceeding. -/
theorem c2_empty_selection (records : List SurveyRecord) (hid hst : String) :
    comparison records hid hst [] = [] ∧
    (tableRegion 0).height = inchesEmu 0.4 ∧
    inchesEmu 2 ≤ (chartRegion 0).height ∧
    displayTable (comparison records hid hst []) =
      Except.error ("KeyError: requested columns not in the DataFrame") :=
  ⟨rfl, by decide, by decide, rfl⟩

/-- C6: in every row of every comparison table, the vs State cell is null
exactly when the hospital or state mean is null and otherwise equals
their exact difference, and symmetrically for vs National. -/
theorem c6_diff_cells (records : List SurveyRecord) (hid hst : String)
    (ms : List MetricDef) (row : CompRow)
    (hrow : row ∈ comparison records hid hst ms) :
    (row.vsState = none ↔ (row.hospital = none ∨ row.stateAvg = none)) ∧
    (∀ h s, row.hospital = some h → row.stateAvg = some s → row.vsState = some (h - s)) ∧
    (row.vsNational = none ↔ (row.hospital = none ∨ row.nationalAvg = none)) ∧
    (∀ h n, row.hospital = some h → row.nationalAvg = some n → row.vsNational = some (h - n)) := by
  rcases List.mem_map.mp hrow with ⟨m, hm, rfl⟩
  cases hh : hospScore records hid m.measureId <;>
    cases hs : stateScore records hst m.measureId <;>
      cases hn : natScore records m.measureId <;>
        simp [comparisonRow, diffOpt, hh, hs, hn]

/-- C6 (witness): scenario A evaluated concretely: hospital mean 80,
state mean 70, so the vs State cell is exactly 10. -/
theorem c6_witness : (comparisonRow scenarioA ("A") ("TX") mNurse).vsState = some 10 := by
  have h := (c6_diff_cells scenarioA ("A") ("TX") [mNurse]
      (comparisonRow scenarioA ("A") ("TX") mNurse) (by decide)).2.1 80 70
      (by decide) (by decide)
  rw [h]
  norm_num

/-- C9 (counterexample): the claim that both artifacts are released on
every exit path is false on the path where chart rasterization fails: the
handler exits with the error while the chart temp file is still on
disk. -/
theorem c9_counterexample :
    (runExport ⟨false, true, true⟩).1 = Except.error ("write_image failed") ∧
    (runExport ⟨false, true, true⟩).2.chartFile = true :=
  ⟨rfl, rfl⟩

/-- C9 (amended): the export handler releases both temporary artifacts
only on the fully successful path; whenever any step fails (chart
rasterization, export-figure rasterization inside create_pptx, or saving
the presentation) the handler exits with the chart temp file still
present, because no try/finally guards the two os.remove calls. -/
theorem c9_cleanup_success_only (env : ExportEnv) :
    ((runExport env).1 = Except.ok () →
      (runExport env).2.chartFile = false ∧ (runExport env).2.pptxFile = false) ∧
    (∀ e, (runExport env).1 = Except.error e → (runExport env).2.chartFile = true) := by
  rcases env with ⟨c, x, s⟩
  cases c <;> cases x <;> cases s <;> simp [runExport]

/-- C9 (witness): on the fully successful run both temp files are gone at
exit. -/
theorem c9_witness :
    (runExport ⟨true, true, true⟩).2.chartFile = false ∧
    (runExport ⟨true, true, true⟩).2.pptxFile = false :=
  (c9_cleanup_success_only ⟨true, true, true⟩).1 rfl

/-- C3 (counterexample): the claim that the four regions stack strictly
top-to-bottom with one fixed inter-region margin is false at the very
first pair: the date region starts at 1.1 inches, above the title region
bottom at 1.3 inches, so the two rectangles overlap (they share the same
horizontal span), and the title-to-date step is not top + height + a
nonnegative fixed margin. -/
theorem c3_counterexample :
    titleRegion.left = dateRegion.left ∧
    titleRegion.width = dateRegion.width ∧
    dateRegion.top < titleRegion.top + titleRegion.height ∧
    titleRegion.top < dateRegion.top + dateRegion.height ∧
    titleRegion.top + titleRegion.height ≠ dateRegion.top := by
  decide

/-- C3 (amended): for every row count the date, table and chart regions
do stack strictly top-to-bottom without overlap, but the title region
overlaps the date region by exactly 0.2 inches (the date top sits above
the title bottom), and the inter-region gaps are not one fixed margin:
title to date is minus 0.2 inches, date to table plus 0.1 inches, table
to chart plus 0.2 inches. -/
theorem c3_vertical_stacking (R : ℕ) :
    dateRegion.top + dateRegion.height ≤ (tableRegion R).top ∧
    (tableRegion R).top + (tableRegion R).height < (chartRegion R).top ∧
    dateRegion.top < titleRegion.top + titleRegion.height ∧
    titleRegion.top + titleRegion.height - dateRegion.top = inchesEmu 0.2 ∧
    (tableRegion R).top - (dateRegion.top + dateRegion.height) = inchesEmu 0.1 ∧
    (chartRegion R).top - ((tableRegion R).top + (tableRegion R).height) = inchesEmu 0.2 := by
  have h1 : titleRegion.top = 274320 := by decide
  have h2 : titleRegion.height = 914400 := by decide
  have h3 : dateRegion.top = 1005840 := by decide
  have h4 : dateRegion.height = 365760 := by decide
  have h5 : (tableRegion R).top = 1463040 := by
    show inchesEmu 1.6 = 1463040
    decide
  have h6 := tableRegion_height R
  have h7 := chartRegion_top R
  have h8 : inchesEmu 0.2 = 182880 := by decide
  have h9 : inchesEmu 0.1 = 91440 := by decide
  omega

/-- C7: the chart region height never falls below the 2-inch minimum;
when the height computed from the remaining canvas space is below the
minimum it is clamped to exactly the minimum, and the chart then extends
past the nominal 0.3-inch bottom margin of the slide. -/
theorem c7_chart_min_height (R : ℕ) :
    inchesEmu 2 ≤ (chartRegion R).height ∧
    (chartHeightRaw R < inchesEmu 2 →
      (chartRegion R).height = inchesEmu 2 ∧
      slideHeight - inchesEmu 0.3 < (chartRegion R).top + (chartRegion R).height) := by
  have h1 : inchesEmu 2 = 1828800 := by decide
  have h2 : inchesEmu 0.3 = 274320 := by decide
  have h3 : slideHeight = 6858000 := by decide
  have h4 := chartRegion_height R
  have h5 := chartHeightRaw_eval R
  have h6 := chartRegion_top R
  rw [h1, h2, h3, h4, h5, h6]
  split_ifs with hc
  · exact ⟨by omega, fun hcond => ⟨by omega, by omega⟩⟩
  · exact ⟨by omega, fun hcond => ⟨by omega, by omega⟩⟩

/-- C7 (witness): at 20 rows the remaining space is below the minimum, so
the chart is clamped to exactly 2 inches and overflows the bottom
margin. -/
theorem c7_witness :
    (chartRegion 20).height = inchesEmu 2 ∧
    slideHeight - inchesEmu 0.3 < (chartRegion 20).top + (chartRegion 20).height :=
  (c7_chart_min_height 20).2 (by decide)

/-- C5: records with a null answer percent are excluded from all three
means entirely (dropping them changes nothing), and when the filtered
hospital record set has no non-null values the hospital mean is null,
both diff cells are null, the exported cell renders as empty text with no
fill, and the interactive cell styles neutral; every step is a total
function, so no exception can arise. -/
theorem c5_missing_data (records : List SurveyRecord) (hid hst : String) (m : MetricDef) :
    comparisonRow records hid hst m
      = comparisonRow (records.filter (fun r => r.answerPercent.isSome)) hid hst m ∧
    ((((records.filter (fun r => decide (hospMatch hid m.measureId r))).map
          (·.answerPercent)).filterMap id = []) →
      (comparisonRow records hid hst m).hospital = none ∧
      (comparisonRow records hid hst m).vsState = none ∧
      (comparisonRow records hid hst m).vsNational = none ∧
      (mkDataCell (CellVal.numVal (comparisonRow records hid hst m).hospital)).text = ("") ∧
      (mkDataCell (CellVal.numVal (comparisonRow records hid hst m).hospital)).fill = none ∧
      interactiveSentiment (comparisonRow records hid hst m).vsState = Sentiment.NEUTRAL) := by
  constructor
  · simp only [comparisonRow, hospScore_filter_isSome, stateScore_filter_isSome,
      natScore_filter_isSome]
  · intro hempty
    have hh : hospScore records hid m.measureId = none := by
      unfold hospScore pdMean
      rw [hempty]
      rfl
    have hhr : (comparisonRow records hid hst m).hospital = none := hh
    have hvs : (comparisonRow records hid hst m).vsState = none := by
      show diffOpt (hospScore records hid m.measureId) (stateScore records hst m.measureId) = none
      rw [hh]
      exact diffOpt_none_left _
    have hvn : (comparisonRow records hid hst m).vsNational = none := by
      show diffOpt (hospScore records hid m.measureId) (natScore records m.measureId) = none
      rw [hh]
      exact diffOpt_none_left _
    refine ⟨hhr, hvs, hvn, ?_, ?_, ?_⟩
    · rw [hhr]
      rfl
    · rw [hhr]
      rfl
    · rw [hvs]
      rfl

/-- C5 (witness): in scenario A the doctor metric has no matching
records, and concretely its hospital mean, vs State cell and styling all
come out null and neutral. -/
theorem c5_witness :
    (comparisonRow scenarioA ("A") ("TX") mDoctor).hospital = none ∧
    (comparisonRow scenarioA ("A") ("TX") mDoctor).vsState = none ∧
    interactiveSentiment (comparisonRow scenarioA ("A") ("TX") mDoctor).vsState
      = Sentiment.NEUTRAL := by
  have h := (c5_missing_data scenarioA ("A") ("TX") mDoctor).2 (by decide)
  exact ⟨h.1, h.2.1, h.2.2.2.2.2⟩

/-- C8: for every selection of distinct catalog labels the comparison
table has exactly one row per selected metric, rows follow the order of
the measures list the selection induces (catalog order), and a metric
with zero matching hospital records still yields a row with its label
intact and null hospital and diff cells. -/
theorem c8_row_per_metric (records : List SurveyRecord) (hid hst : String)
    (sel : List String) (hne : sel ≠ []) (hnd : sel.Nodup)
    (hsub : ∀ s ∈ sel, s ∈ allMeasures.map (·.label)) :
    (comparison records hid hst (measures sel)).length = sel.length ∧
    (comparison records hid hst (measures sel)).map (·.measure)
      = (measures sel).map (·.label) ∧
    (∀ m ∈ measures sel,
      records.filter (fun r => decide (hospMatch hid m.measureId r)) = [] →
        (comparisonRow records hid hst m).measure = m.label ∧
        (comparisonRow records hid hst m).hospital = none ∧
        (comparisonRow records hid hst m).vsState = none ∧
        (comparisonRow records hid hst m).vsNational = none) := by
  refine ⟨?_, ?_, ?_⟩
  · unfold comparison
    rw [List.length_map]
    exact measures_length sel hnd hsub
  · unfold comparison
    rw [List.map_map]
    rfl
  · intro m hm hempty
    have hh : hospScore records hid m.measureId = none := by
      unfold hospScore pdMean
      rw [hempty]
      rfl
    refine ⟨rfl, hh, ?_, ?_⟩
    · show diffOpt (hospScore records hid m.measureId) (stateScore records hst m.measureId) = none
      rw [hh]
      exact diffOpt_none_left _
    · show diffOpt (hospScore records hid m.measureId) (natScore records m.measureId) = none
      rw [hh]
      exact diffOpt_none_left _

/-- C8 (witness): the two-metric selection over scenario A concretely
yields two rows, and the doctor row (zero matching records) keeps a null
hospital mean. -/
theorem c8_witness :
    (comparison scenarioA ("A") ("TX") (measures selW)).length = 2 ∧
    (comparisonRow scenarioA ("A") ("TX") mDoctor).hospital = none := by
  have h := c8_row_per_metric scenarioA ("A") ("TX") selW (by decide) (by decide) (by decide)
  exact ⟨h.1, (h.2.2 mDoctor (by decide) (by decide)).2.1⟩

/-- C4 (counterexample): the claim that column widths are computed from
the rendered cell text is false on the single-row table whose hospital
score is 12.345678: the code measures the raw Python str (9 characters)
and assigns width 1.08 inches to the Hospital column, while the
spec formula over the rendered one-decimal text (4 characters, below the
8-character header) would clamp to the 1.0-inch minimum. -/
theorem c4_counterexample :
    (autoFitWidths rowsLong).getD 1 0 = 27/25 ∧
    (specWidths rowsLong).getD 1 0 = 1 ∧
    autoFitWidths rowsLong ≠ specWidths rowsLong := by
  decide

/-- C4 (amended): for every non-empty comparison table the auto-fit loop
assigns one width per comp_df column, equal to
clamp(0.12 * len_j, 1.0, 2.2) where len_j is the maximum of the header
length and the length of the raw Python str of each cell value — null
numeric cells measure as the three characters of nan and floats as their
full repr, not as their one-decimal rendered text. -/
theorem c4_autofit_widths (rowsData : List CompRow) (hne : rowsData ≠ []) :
    (autoFitWidths rowsData).length = 6 ∧
    ∀ j, j < 6 →
      (autoFitWidths rowsData).getD j 0 =
        min (max (0.12 * (((rowsData.map
              (fun r => (pyCellStr (colField j r)).length)).foldl max
                (colHeader j).length : ℕ) : ℚ)) 1.0) 2.2 := by
  have hemp : rowsData.isEmpty = false := by
    simp only [List.isEmpty_eq_false]
    exact hne
  constructor
  · simp [autoFitWidths, columnCells, hemp]
  · intro j hj
    interval_cases j <;>
      simp [autoFitWidths, columnCells, hemp, colWidthIn, colMaxLen, colField, colHeader,
        List.map_map, Function.comp_def]

/-- C4 (witness): on the long-decimal single-row table the amended
formula evaluates concretely: six columns, and the Hospital column gets
width 1.08 inches (9 raw characters times 0.12). -/
theorem c4_witness :
    (autoFitWidths rowsLong).length = 6 ∧
    (autoFitWidths rowsLong).getD 1 0 = 27/25 :=
  ⟨(c4_autofit_widths rowsLong (by decide)).1,
   ((c4_autofit_widths rowsLong (by decide)).2 1 (by decide)).trans (by decide)⟩

/-- C10: both the interactive figure and the export figure pin the y-axis
range to exactly 0 through 100, for every comparison table (the range
does not depend on the data). -/
theorem c10_yaxis_fixed (rowsData : List CompRow) :
    (makeFig rowsData).yaxisRange = some (0, 100) ∧
    (makeExportFig rowsData).yaxisRange = some (0, 100) ∧
    (makeFig rowsData).yaxisRange = (makeExportFig rowsData).yaxisRange :=
  ⟨rfl, rfl, rfl⟩

end HB
